import Mathlib

/-!
Verification of the wrapspawner delegation layer.

Shallow embedding of src/wrapspawner/wrapspawner.py and
src/wrapspawner/filters.py. Launcher classes are opaque in the source
(arbitrary Spawner subclasses), so a class reference is modelled as a
String; configuration dictionaries are modelled as association lists
String x String; Python sets are modelled as duplicate-free lists; log
output is modelled as an explicit list of messages returned alongside
the result; raising code returns Except.
-/

set_option autoImplicit false

/-- A profile as used by ProfilesSpawner: display name, unique key,
Spawner class reference, spawner config options (the 4-tuple of the
source). -/
structure Profile where
  display : String
  key : String
  type : String
  config : List (String × String)
deriving Repr, DecidableEq

/-- A FilteredSpawner profile: the 4-tuple plus the list of allowed
user groups (the 5-tuple of FilteredSpawner.default_profiles). -/
structure FProfile where
  display : String
  key : String
  type : String
  config : List (String × String)
  allowedGroups : List String
deriving Repr, DecidableEq

/-- Python slice p[:4] on a 5-tuple profile: drop the group list. -/
def FProfile.strip (p : FProfile) : Profile :=
  { display := p.display, key := p.key, type := p.type, config := p.config }

/-- An element of the list built by UnixGroupFilter.apply_filter: the
source appends the full 5-tuple p on the wildcard branch and the
stripped 4-tuple p[:4] on the membership branch. -/
inductive FilterEntry where
  | full (p : FProfile)
  | stripped (p : Profile)
deriving Repr, DecidableEq

/-- The warning text logged in UnixGroupFilter.apply_filter when
grp.getgrnam raises KeyError for a group name. -/
def warnUnknownGroup (group pkey : String) : String :=
  "Config problem: Encountered unknown UNIX group " ++ group ++
    " for profile " ++ pkey ++ ". Ignoring..."

/-- The inner for-loop of UnixGroupFilter.apply_filter over the group
names of one profile p. grpDB models grp.getgrnam restricted to the
member list (entry 3 of the returned struct): none models KeyError.
Returns the appended entry, if any, together with the warnings logged.
On the wildcard the full tuple is appended and the loop breaks; on a
KeyError the warning is logged and members is the empty list, so the
membership test fails and the loop continues. -/
def UnixGroupFilter.scanGroups (grpDB : String → Option (List String))
    (user : String) (p : FProfile) :
    List String → Option FilterEntry × List String
  | [] => (none, [])
  | group :: rest =>
    if group = "*" then (some (FilterEntry.full p), [])
    else
      let mw : List String × List String :=
        match grpDB group with
        | some m => (m, [])
        | none => ([], [warnUnknownGroup group p.key])
      if user ∈ mw.1 then (some (FilterEntry.stripped p.strip), mw.2)
      else
        let rw := UnixGroupFilter.scanGroups grpDB user p rest
        (rw.1, mw.2 ++ rw.2)

/-- UnixGroupFilter.apply_filter(default_profiles, user): the outer
for-loop, collecting the entries appended to profiles and the warnings
logged. -/
def UnixGroupFilter.apply_filter (grpDB : String → Option (List String)) :
    List FProfile → String → List FilterEntry × List String
  | [], _ => ([], [])
  | p :: ps, user =>
    let rw := UnixGroupFilter.scanGroups grpDB user p p.allowedGroups
    let rest := UnixGroupFilter.apply_filter grpDB ps user
    (rw.1.toList ++ rest.1, rw.2 ++ rest.2)

/-- A constructed child Spawner instance. Instance identity is modelled
by the id field, drawn from a fresh counter at construction time; cls
and config record the class and keyword arguments it was instantiated
with; loadedState is the state applied to it right after construction
(clear_state gives the empty state, then load_state(child_state) is
applied whenever child_state is non-empty, so the applied state equals
the child_state of the wrapper in either case). -/
structure ChildSpawner where
  id : Nat
  cls : String
  config : List (String × String)
  loadedState : List (String × String)
deriving Repr, DecidableEq

/-- The mutable attributes of a WrapSpawner relevant to construction
and state handling, plus the directional_link calls made so far (as
pairs of child instance id and trait name) and the fresh-instance
counter. -/
structure WrapState where
  child_class : String
  child_config : List (String × String)
  child_state : List (String × String)
  child_spawner : Option ChildSpawner
  links : List (Nat × String)
  nextId : Nat
deriving Repr, DecidableEq

/-- dict update d.update(u): entries of u override entries of d with
the same key, new keys are appended. -/
def updateMap (base updates : List (String × String)) :
    List (String × String) :=
  updates.foldl
    (fun acc kv =>
      if acc.any (fun e => e.1 == kv.1) then
        acc.map (fun e => if e.1 == kv.1 then kv else e)
      else acc ++ [kv])
    base

/-- WrapSpawner.construct_child. If no child exists it instantiates
child_class with the child_config keyword arguments, clears the new
instance and loads child_state into it, then links every trait name
common to wrapper and child that is not a child_config key; if a child
already exists it is returned unchanged. traitNames and childTraitNames
model self.trait_names() and the trait names of the child class. -/
def WrapSpawner.construct_child (traitNames childTraitNames : List String)
    (s : WrapState) : WrapState × ChildSpawner :=
  match s.child_spawner with
  | some c => (s, c)
  | none =>
    let c : ChildSpawner :=
      { id := s.nextId, cls := s.child_class, config := s.child_config,
        loadedState := s.child_state }
    let common := traitNames.filter (fun t =>
      childTraitNames.contains t &&
        !((s.child_config.map Prod.fst).contains t))
    ({ s with child_spawner := some c,
              links := s.links ++ common.map (fun t => (c.id, t)),
              nextId := s.nextId + 1 },
     c)

/-- Events observable while proxying lifecycle hooks. -/
inductive LifeEvent where
  | wrapperPreHook
  | childPreHook
  | childAuthHook
deriving Repr, DecidableEq

/-- WrapSpawner.run_pre_spawn_hook: when the wrapper defines its own
pre_spawn_hook the source returns self.pre_spawn_hook(self) directly;
only when none is defined does it call the child hook. A hook is
modelled by the outcome of invoking it; the event list records which
hooks were invoked. -/
def WrapSpawner.run_pre_spawn_hook (pre_spawn_hook : Option (Except String Unit))
    (childPreHook : Except String Unit) :
    Except String Unit × List LifeEvent :=
  match pre_spawn_hook with
  | some h => (h, [LifeEvent.wrapperPreHook])
  | none => (childPreHook, [LifeEvent.childPreHook])

/-- The body of the try block of WrapSpawner.run_post_stop_hook: when
the wrapper defines post_stop_hook it is invoked and then the child
hook is invoked; when it is None the body does nothing (note the child
hook call sits inside the if in the source). -/
def postStopBody (post_stop_hook : Option (Except String Unit))
    (childPostStopHook : Except String Unit) : Except String Unit :=
  match post_stop_hook with
  | none => Except.ok ()
  | some h =>
    match h with
    | Except.error e => Except.error e
    | Except.ok _ => childPostStopHook

/-- The message written by self.log.exception in run_post_stop_hook. -/
def postStopLog (e : String) : String :=
  "post_stop_hook failed with exception: " ++ e

/-- WrapSpawner.run_post_stop_hook: the body runs inside try/except
Exception, so any exception is logged and swallowed and the method
returns normally in every case. -/
def WrapSpawner.run_post_stop_hook (post_stop_hook : Option (Except String Unit))
    (childPostStopHook : Except String Unit) :
    Except String Unit × List String :=
  match postStopBody post_stop_hook childPostStopHook with
  | Except.ok _ => (Except.ok (), [])
  | Except.error e => (Except.ok (), [postStopLog e])

/-- Python exception kinds relevant to run_auth_state_hook. -/
inductive PyError where
  | typeError
deriving Repr, DecidableEq

/-- WrapSpawner.run_auth_state_hook. When auth_state_hook is not None
the source evaluates self.run_auth_state_hook(self, auth_state): that
is the method itself, a bound method taking one argument besides self,
called with two, so Python raises TypeError before any hook runs.
When auth_state_hook is None the method constructs the child if none
exists and then awaits the child auth-state hook. -/
def WrapSpawner.run_auth_state_hook (traitNames childTraitNames : List String)
    (auth_state_hook : Option Unit) (s : WrapState) :
    Except PyError (WrapState × List LifeEvent) :=
  match auth_state_hook with
  | some _ => Except.error PyError.typeError
  | none =>
    let s :=
      if s.child_spawner.isNone then
        (WrapSpawner.construct_child traitNames childTraitNames s).1
      else s
    Except.ok (s, [LifeEvent.childAuthHook])

/-- A tornado future, tagged by whether it is already resolved when
handed back (concurrent.Future with set_result, as built by _yield_val)
or a pending child operation that may suspend the caller. -/
inductive Fut (α : Type) where
  | immediate (val : α)
  | pending (val : α)
deriving Repr, DecidableEq

/-- _yield_val(x): a dummy Future already resolved with value x. -/
def _yield_val {α : Type} (x : α) : Fut α := Fut.immediate x

/-- A poll status: none models None (still running), some n models an
integer exit status of a stopped server. -/
abbrev PollStatus := Option Int

/-- WrapSpawner.poll: forward to the child when one exists, else
return _yield_val(1). -/
def WrapSpawner.poll (child_poll : Option (Fut PollStatus)) : Fut PollStatus :=
  match child_poll with
  | some f => f
  | none => _yield_val (some 1)

/-- The ProfilesSpawner attributes: the profiles catalog, the profile
key submitted through user_options (none when the form supplied no
profile entry), the child_profile attribute, and the inherited
WrapSpawner attributes. -/
structure PState where
  profiles : List Profile
  user_options_profile : Option String
  child_profile : String
  wrap : WrapState
deriving Repr, DecidableEq

/-- ProfilesSpawner.select_profile: set child_class and child_config
from the first catalog entry whose key matches, or do nothing, leaving
the previous or default config in place. -/
def ProfilesSpawner.select_profile (s : PState) (profile : String) : PState :=
  match s.profiles.find? (fun p => p.key == profile) with
  | some p =>
    { s with wrap := { s.wrap with child_class := p.type,
                                   child_config := p.config } }
  | none => s

/-- ProfilesSpawner.construct_child: set child_profile from
user_options (empty string when absent), select that profile, then run
the base construct_child. The source method has no return statement,
so its Python return value is None: the second component is the
returned value. -/
def ProfilesSpawner.construct_child (traitNames childTraitNames : List String)
    (s : PState) : PState × Option ChildSpawner :=
  let s := { s with child_profile := s.user_options_profile.getD "" }
  let s := ProfilesSpawner.select_profile s s.child_profile
  let w := (WrapSpawner.construct_child traitNames childTraitNames s.wrap).1
  ({ s with wrap := w }, none)

/-- The persisted state envelope read by load_state: the profile key
saved by ProfilesSpawner.get_state (absent models KeyError on
state["profile"]), plus the child_conf and child_state entries (the
source substitutes an empty dict when either is absent, so they are
plain lists here). -/
structure PersistedState where
  profile : Option String
  child_conf : List (String × String)
  child_state : List (String × String)
deriving Repr, DecidableEq

/-- ProfilesSpawner.load_child_class: restore child_profile from
state["profile"] (empty string on KeyError) and select it. -/
def ProfilesSpawner.load_child_class (s : PState) (st : PersistedState) :
    PState :=
  let s := { s with child_profile := st.profile.getD "" }
  ProfilesSpawner.select_profile s s.child_profile

/-- WrapSpawner.load_state as executed on a ProfilesSpawner: the
load_child_class and construct_child calls dispatch to the
ProfilesSpawner overrides. It updates child_config with the persisted
child_conf, replaces child_state, and finally constructs the child. -/
def ProfilesSpawner.load_state (traitNames childTraitNames : List String)
    (s : PState) (st : PersistedState) : PState :=
  let s := ProfilesSpawner.load_child_class s st
  let s := { s with wrap :=
    { s.wrap with child_config := updateMap s.wrap.child_config st.child_conf,
                  child_state := st.child_state } }
  (ProfilesSpawner.construct_child traitNames childTraitNames s).1

/-- The duplicated-keys set of ProfilesSpawner._validate_profiles,
built exactly as the set comprehension in the source builds it: keys
are scanned in order against the seen set; a key already seen joins
the duplicated set (sets are duplicate-free lists here). -/
def dupKeys (seen : List String) : List String → List String
  | [] => []
  | k :: ks =>
    if k ∈ seen then (dupKeys seen ks).insert k
    else dupKeys (k :: seen) ks

/-- ProfilesSpawner._validate_profiles: raise TraitError carrying the
duplicated keys when any key occurs twice, otherwise return the
proposed profiles list unchanged. -/
def ProfilesSpawner._validate_profiles (profiles : List Profile) :
    Except (List String) (List Profile) :=
  let duplicated := dupKeys [] (profiles.map Profile.key)
  if duplicated.length ≠ 0 then Except.error duplicated
  else Except.ok profiles

/-- One element of the temp_keys list of _options_form_default. -/
structure TempKey where
  display : String
  key : String
  type : String
  first : String
deriving Repr, DecidableEq

/-- The exception raised by indexing temp_keys[0] on an empty list. -/
inductive FormError where
  | indexError
deriving Repr, DecidableEq

/-- The shared body of ProfilesSpawner._options_form_default and of
the render_option_form closures returned by the ImportedProfilesSpawner
and ServiceProfilesSpawner overrides (all three bodies are identical in
the source). input_template and form_template model the configured
format templates as rendering functions; first_template models the
first_template trait. temp_keys[0] is assigned unconditionally, so an
empty profiles list raises IndexError. -/
def ProfilesSpawner._options_form_default (first_template : String)
    (input_template : TempKey → String) (form_template : String → String)
    (profiles : List Profile) : Except FormError String :=
  let temp_keys := profiles.map (fun p =>
    { display := p.display, key := p.key, type := p.type, first := "" : TempKey })
  match temp_keys with
  | [] => Except.error FormError.indexError
  | tk :: rest =>
    let temp_keys := { tk with first := first_template } :: rest
    let text := String.join (temp_keys.map input_template)
    Except.ok (form_template text)

/-- A profile record as decoded from the JSON body served by the
remote profile service: spawner is optional. -/
structure RawProfile where
  description : String
  profile_id : String
  spawner : Option String
  options : List (String × String)
deriving Repr, DecidableEq

/-- HTTP level failures of the profile service and token endpoints. -/
inductive HttpErr where
  | unauthorized
  | otherError
deriving Repr, DecidableEq

/-- The remote endpoints consumed by ServiceProfilesSpawner:
fetchProfiles models a GET of profiles_service_url carrying the given
bearer token and returns the decoded profiles array; issueToken models
the POST to the hub token endpoint made by _get_user_token. -/
structure HttpOracle where
  fetchProfiles : String → Except HttpErr (List RawProfile)
  issueToken : Except HttpErr String

/-- The mutable ServiceProfilesSpawner attributes: the cached token
(none while the user_token attribute is unset, which is what makes the
AttributeError arm of renew_api_token reachable in principle) and a
counter of calls made to the token-issuance endpoint. -/
structure ServiceState where
  user_token : Option String
  tokenIssuanceCalls : Nat
deriving Repr, DecidableEq

/-- The token literal assigned to self.user_token inside
ServiceProfilesSpawner._get_profiles. -/
def hardcoded_api_token : String := "2ac1ee9a8e2240d6b347e13f23f31ef1"

/-- ServiceProfilesSpawner._get_user_token: one POST to the hub token
endpoint; on success the returned token is cached, on any failure the
cached token becomes the empty string. -/
def ServiceProfilesSpawner._get_user_token (o : HttpOracle)
    (s : ServiceState) : ServiceState :=
  { user_token := some (match o.issueToken with
      | Except.ok t => t
      | Except.error _ => ""),
    tokenIssuanceCalls := s.tokenIssuanceCalls + 1 }

/-- ServiceProfilesSpawner._get_profiles: assigns the hardcoded token
to user_token and fetches the profiles URL with it. The try/except
HTTPClientError around the fetch in the source cannot fire, because
AsyncHTTPClient.fetch returns a future without raising; the HTTP error
surfaces later, when IOLoop.run_sync awaits that future, so it is the
result here. -/
def ServiceProfilesSpawner._get_profiles (o : HttpOracle)
    (s : ServiceState) : ServiceState × Except HttpErr (List RawProfile) :=
  let s := { s with user_token := some hardcoded_api_token }
  (s, o.fetchProfiles hardcoded_api_token)

/-- The profiles property of ServiceProfilesSpawner: run _get_profiles
to completion, decode the profiles array and normalize each record
(spawner defaults to batchspawner.SlurmSpawner on KeyError). The
property installs no exception handler, so a failed fetch propagates.
The renew_api_token decoration above the property is commented out in
the source. -/
def ServiceProfilesSpawner.profiles (o : HttpOracle) (s : ServiceState) :
    ServiceState × Except HttpErr (List Profile) :=
  let (s, fetched) := ServiceProfilesSpawner._get_profiles o s
  match fetched with
  | Except.error e => (s, Except.error e)
  | Except.ok data =>
    (s, Except.ok (data.map (fun r =>
      { display := r.description, key := r.profile_id,
        type := r.spawner.getD "batchspawner.SlurmSpawner",
        config := r.options })))

/-- The renew_api_token decorator of the source: its body defines the
inner wrapper function whose last line, return wrapper, is indented
inside wrapper itself after its return statements and is therefore
unreachable; the decorator body has no return statement of its own, so
applying it to any function evaluates to None. -/
def renew_api_token {α β : Type} (func : α → β) : Option (α → β) :=
  let _ := func
  none

/-! Concrete fixtures used by counterexamples and witnesses. -/

/-- A fresh wrapper state: class still the LocalProcessSpawner default,
nothing configured, no child constructed. -/
def w0 : WrapState :=
  { child_class := "LocalProcessSpawner", child_config := [],
    child_state := [], child_spawner := none, links := [], nextId := 0 }

/-- The default profile of the profiles trait. -/
def localProfile : Profile :=
  { display := "Local Notebook Server", key := "local",
    type := "LocalProcessSpawner", config := [("start_timeout", "15")] }

/-- A fresh ProfilesSpawner over the default catalog, no user options. -/
def s0 : PState :=
  { profiles := [localProfile], user_options_profile := none,
    child_profile := "", wrap := w0 }

/-- A persisted envelope whose profile key is absent from the catalog
of s0. -/
def st0 : PersistedState :=
  { profile := some "gone", child_conf := [], child_state := [] }

/-- A remote service that rejects every bearer token, while the hub
token-issuance endpoint works. -/
def rejectingOracle : HttpOracle :=
  { fetchProfiles := fun _ => Except.error HttpErr.unauthorized,
    issueToken := Except.ok "fresh-token" }

/-- A ServiceProfilesSpawner that has not yet set user_token and has
made no token-issuance calls. -/
def svc0 : ServiceState := { user_token := none, tokenIssuanceCalls := 0 }

/-! Claim theorems. -/

/-- Claim C2, counterexample: a wrapper with a pre-spawn hook that
returns normally. run_pre_spawn_hook runs only the wrapper hook; the
launcher hook is never invoked, so the method does not forward to it
as the claim states. -/
theorem run_pre_spawn_hook_counterexample :
    (WrapSpawner.run_pre_spawn_hook (some (Except.ok ())) (Except.ok ())).2 =
      [LifeEvent.wrapperPreHook]
    ∧ LifeEvent.childPreHook ∉
        (WrapSpawner.run_pre_spawn_hook (some (Except.ok ())) (Except.ok ())).2 :=
  ⟨rfl, by decide⟩

/-- Claim C2, amended: when the wrapper defines a pre-spawn hook,
run_pre_spawn_hook runs only the wrapper hook and returns its result,
without forwarding to the launcher hook; the launcher hook runs
exactly when the wrapper defines none. -/
theorem run_pre_spawn_hook_override_replaces_child_hook :
    ∀ (h c : Except String Unit),
      WrapSpawner.run_pre_spawn_hook (some h) c = (h, [LifeEvent.wrapperPreHook])
      ∧ WrapSpawner.run_pre_spawn_hook none c = (c, [LifeEvent.childPreHook]) :=
  fun _ _ => ⟨rfl, rfl⟩

/-- Claim C3, code evaluated at the failing input: against a service
that rejects the hardcoded bearer token while token issuance works,
the profiles property propagates the HTTP error (it does not yield an
empty catalog), the token-issuance endpoint is called zero times (not
once), and the renew_api_token decorator evaluates to None for any
function. -/
theorem service_profiles_no_token_refresh_on_rejection :
    (ServiceProfilesSpawner.profiles rejectingOracle svc0).2 =
      Except.error HttpErr.unauthorized
    ∧ (ServiceProfilesSpawner.profiles rejectingOracle svc0).1.tokenIssuanceCalls = 0
    ∧ renew_api_token (fun s : ServiceState => s) = none :=
  ⟨rfl, rfl, rfl⟩

/-- Claim C7: whatever the wrapper-level hook and the launcher-level
hook do, run_post_stop_hook returns normally in every case, and any
exception raised by the executed hook chain is logged with the
post_stop_hook failure message instead of propagating. -/
theorem run_post_stop_hook_never_propagates :
    ∀ (hook : Option (Except String Unit)) (child : Except String Unit),
      (WrapSpawner.run_post_stop_hook hook child).1 = Except.ok ()
      ∧ ∀ e, postStopBody hook child = Except.error e →
          (WrapSpawner.run_post_stop_hook hook child).2 = [postStopLog e] := by
  intro hook child
  refine ⟨?_, ?_⟩
  · cases h : postStopBody hook child <;>
      simp [WrapSpawner.run_post_stop_hook, h]
  · intro e he
    simp [WrapSpawner.run_post_stop_hook, he]

/-- Claim C7, witness: a wrapper hook that raises boom; the method
still returns normally and logs the exception. -/
theorem run_post_stop_hook_never_propagates_witness :
    postStopBody (some (Except.error "boom")) (Except.ok ()) = Except.error "boom"
    ∧ (WrapSpawner.run_post_stop_hook (some (Except.error "boom")) (Except.ok ())).1 =
        Except.ok ()
    ∧ (WrapSpawner.run_post_stop_hook (some (Except.error "boom")) (Except.ok ())).2 =
        [postStopLog "boom"] :=
  ⟨rfl,
   (run_post_stop_hook_never_propagates (some (Except.error "boom")) (Except.ok ())).1,
   (run_post_stop_hook_never_propagates (some (Except.error "boom")) (Except.ok ())).2
     "boom" rfl⟩

/-- Claim C8, counterexample: the sentinel 1 returned by poll on a
wrapper with no launcher equals a genuine exit status a launcher could
return; a wrapper whose launcher exited with status 1 is
indistinguishable from a wrapper that never started. -/
theorem poll_sentinel_equals_genuine_exit_status :
    WrapSpawner.poll none = Fut.immediate (some 1)
    ∧ WrapSpawner.poll (some (Fut.immediate (some 1))) = WrapSpawner.poll none :=
  ⟨rfl, rfl⟩

/-- Claim C8, amended: poll on a wrapper with no launcher returns
immediately (an already resolved future, no suspension, no error) the
not-running status 1, which is distinct from the running status None
but coincides with a possible genuine exit status; with a launcher it
forwards unchanged. -/
theorem poll_no_child_immediate_not_running :
    WrapSpawner.poll none = _yield_val (some 1)
    ∧ WrapSpawner.poll none = Fut.immediate (some 1)
    ∧ (some 1 : PollStatus) ≠ (none : PollStatus)
    ∧ ∀ f, WrapSpawner.poll (some f) = f :=
  ⟨rfl, rfl, by simp, fun _ => rfl⟩

/-- Claim C9, code evaluated at the failing input: on a wrapper with a
non-null auth-state hook, run_auth_state_hook raises TypeError (the
source calls the method itself with a surplus argument instead of the
hook), so neither the wrapper hook nor the launcher hook runs; with no
wrapper-level hook it does construct the child before delegating. -/
theorem run_auth_state_hook_type_error :
    WrapSpawner.run_auth_state_hook ["port"] ["port"] (some ()) w0 =
      Except.error PyError.typeError
    ∧ WrapSpawner.run_auth_state_hook ["port"] ["port"] none w0 =
        Except.ok ((WrapSpawner.construct_child ["port"] ["port"] w0).1,
          [LifeEvent.childAuthHook])
    ∧ ((WrapSpawner.construct_child ["port"] ["port"] w0).1).child_spawner =
        some { id := 0, cls := "LocalProcessSpawner", config := [],
               loadedState := [] } :=
  ⟨rfl, rfl, rfl⟩

/-- Claim C10: the options-form generator raises IndexError on an
empty catalog (temp_keys[0] is assigned unconditionally) and succeeds
on every non-empty catalog, for all configured templates. The same
body is used by ProfilesSpawner, ImportedProfilesSpawner and
ServiceProfilesSpawner. -/
theorem options_form_empty_catalog_index_error :
    ∀ (ft : String) (it : TempKey → String) (fmt : String → String),
      ProfilesSpawner._options_form_default ft it fmt [] =
        Except.error FormError.indexError
      ∧ ∀ (p : Profile) (ps : List Profile),
          ∃ text, ProfilesSpawner._options_form_default ft it fmt (p :: ps) =
            Except.ok text :=
  fun _ _ _ => ⟨rfl, fun _ _ => ⟨_, rfl⟩⟩

/-- If a child already exists, construct_child returns the state
unchanged together with that child. -/
theorem construct_child_of_some (tn ctn : List String) (w : WrapState)
    (c : ChildSpawner) (h : w.child_spawner = some c) :
    WrapSpawner.construct_child tn ctn w = (w, c) := by
  simp [WrapSpawner.construct_child, h]

/-- After construct_child, the stored child is the returned child. -/
theorem construct_child_stores_result (tn ctn : List String) (w : WrapState) :
    ((WrapSpawner.construct_child tn ctn w).1).child_spawner =
      some (WrapSpawner.construct_child tn ctn w).2 := by
  cases h : w.child_spawner <;> simp [WrapSpawner.construct_child, h]

/-- Claim C5, counterexample: ProfilesSpawner.construct_child has no
return statement, so both the first and the second call return None:
no call returns the launcher instance, although the same instance is
left bound in child_spawner. -/
theorem profiles_construct_child_returns_no_instance :
    (ProfilesSpawner.construct_child ["port"] ["port"] s0).2 = none
    ∧ (ProfilesSpawner.construct_child ["port"] ["port"]
        (ProfilesSpawner.construct_child ["port"] ["port"] s0).1).2 = none
    ∧ ((ProfilesSpawner.construct_child ["port"] ["port"] s0).1).wrap.child_spawner =
        some { id := 0, cls := "LocalProcessSpawner", config := [],
               loadedState := [] }
    ∧ ((ProfilesSpawner.construct_child ["port"] ["port"]
        (ProfilesSpawner.construct_child ["port"] ["port"] s0).1).1).wrap.child_spawner =
        some { id := 0, cls := "LocalProcessSpawner", config := [],
               loadedState := [] } :=
  ⟨rfl, rfl, rfl, rfl⟩

/-- Claim C5, amended: construct is idempotent on the state. A second
call to WrapSpawner.construct_child returns exactly the result of the
first (same state, same launcher instance, hence no further trait
links), and a second call to the ProfilesSpawner override leaves the
state of the first call unchanged; the override returns None on every
call, so neither call returns the launcher instance itself. -/
theorem construct_child_idempotent_links_once :
    ∀ (tn ctn : List String) (w : WrapState) (s : PState),
      WrapSpawner.construct_child tn ctn (WrapSpawner.construct_child tn ctn w).1 =
        WrapSpawner.construct_child tn ctn w
      ∧ ((WrapSpawner.construct_child tn ctn (WrapSpawner.construct_child tn ctn w).1).1).links =
          ((WrapSpawner.construct_child tn ctn w).1).links
      ∧ (ProfilesSpawner.construct_child tn ctn (ProfilesSpawner.construct_child tn ctn s).1).1 =
          (ProfilesSpawner.construct_child tn ctn s).1
      ∧ (ProfilesSpawner.construct_child tn ctn s).2 = none := by
  intro tn ctn w s
  have hidem : WrapSpawner.construct_child tn ctn (WrapSpawner.construct_child tn ctn w).1 =
      WrapSpawner.construct_child tn ctn w := by
    rw [construct_child_of_some tn ctn _ _ (construct_child_stores_result tn ctn w)]
  refine ⟨hidem, by rw [hidem], ?_, rfl⟩
  simp only [ProfilesSpawner.construct_child, ProfilesSpawner.select_profile]
  cases hf : s.profiles.find? (fun p => p.key == s.user_options_profile.getD "") with
  | none =>
    simp only [hf]
    cases hs : s.wrap.child_spawner <;>
      simp [WrapSpawner.construct_child, hs]
  | some p =>
    simp only [hf]
    cases hs : s.wrap.child_spawner <;>
      simp [WrapSpawner.construct_child, hs]

/-- A wildcard entry stops the scan at once: the full profile is
appended and no further group of that profile is looked at, whatever
grpDB and the identity are. -/
theorem scanGroups_wildcard (grpDB : String → Option (List String))
    (user : String) (p : FProfile) (gs : List String) :
    UnixGroupFilter.scanGroups grpDB user p ("*" :: gs) =
      (some (FilterEntry.full p), []) := by
  simp [UnixGroupFilter.scanGroups]

/-- An unresolvable group name is not fatal: the scan logs one warning
for it and continues with the remaining groups, with the same final
decision. -/
theorem scanGroups_unknown_group (grpDB : String → Option (List String))
    (user : String) (p : FProfile) (g : String) (gs : List String)
    (hg : g ≠ "*") (hdb : grpDB g = none) :
    UnixGroupFilter.scanGroups grpDB user p (g :: gs) =
      ((UnixGroupFilter.scanGroups grpDB user p gs).1,
        warnUnknownGroup g p.key :: (UnixGroupFilter.scanGroups grpDB user p gs).2) := by
  simp [UnixGroupFilter.scanGroups, hg, hdb]

/-- A profile whose group list contains the wildcard is included by
the scan, for every grpDB and identity: either as the full tuple (the
wildcard branch) or as the stripped tuple (an earlier group matched). -/
theorem scanGroups_includes_of_wildcard (grpDB : String → Option (List String))
    (user : String) (p : FProfile) :
    ∀ gs, "*" ∈ gs →
      ∃ e, (UnixGroupFilter.scanGroups grpDB user p gs).1 = some e
        ∧ (e = FilterEntry.full p ∨ e = FilterEntry.stripped p.strip) := by
  intro gs
  induction gs with
  | nil => intro h; exact absurd h (List.not_mem_nil _)
  | cons g gs ih =>
    intro hmem
    by_cases hg : g = "*"
    · subst hg
      exact ⟨FilterEntry.full p, by simp [UnixGroupFilter.scanGroups], Or.inl rfl⟩
    · have h2 : "*" ∈ gs := by
        cases List.mem_cons.mp hmem with
        | inl h => exact absurd h.symm hg
        | inr h => exact h
      cases hdb : grpDB g with
      | some m =>
        by_cases hu : user ∈ m
        · exact ⟨FilterEntry.stripped p.strip,
            by simp [UnixGroupFilter.scanGroups, hg, hdb, hu], Or.inr rfl⟩
        · obtain ⟨e, he, hor⟩ := ih h2
          exact ⟨e, by simp [UnixGroupFilter.scanGroups, hg, hdb, hu, he], hor⟩
      | none =>
        obtain ⟨e, he, hor⟩ := ih h2
        exact ⟨e, by simp [UnixGroupFilter.scanGroups, hg, hdb, he], hor⟩

/-- The entries produced by apply_filter are exactly the per-profile
scan decisions, in catalog order: each input profile contributes its
scan entry when the scan included it and nothing otherwise, so each
input profile appears at most once. -/
theorem apply_filter_entries (grpDB : String → Option (List String))
    (user : String) :
    ∀ ps : List FProfile,
      (UnixGroupFilter.apply_filter grpDB ps user).1 =
        ps.filterMap (fun q =>
          (UnixGroupFilter.scanGroups grpDB user q q.allowedGroups).1) := by
  intro ps
  induction ps with
  | nil => rfl
  | cons p ps ih =>
    simp only [UnixGroupFilter.apply_filter, List.filterMap_cons, ih]
    cases h : (UnixGroupFilter.scanGroups grpDB user p p.allowedGroups).1 <;>
      simp [h]

/-- Claim C4: the group filter scans each allowed_groups list in
order; a wildcard includes the profile immediately and stops that scan
regardless of identity or resolution failures; an unresolvable group
name is logged as one warning, treated as empty membership and the
scan continues; the output consists of at most one entry per input
profile (it is the filterMap of the per-profile scan decision). -/
theorem unix_group_filter_scan_behavior :
    ∀ (grpDB : String → Option (List String)) (user : String)
      (ps : List FProfile) (p : FProfile) (g : String) (gs : List String),
      (UnixGroupFilter.scanGroups grpDB user p ("*" :: gs) =
        (some (FilterEntry.full p), []))
      ∧ (p ∈ ps → "*" ∈ p.allowedGroups →
          ∃ e, e ∈ (UnixGroupFilter.apply_filter grpDB ps user).1
            ∧ (e = FilterEntry.full p ∨ e = FilterEntry.stripped p.strip))
      ∧ (g ≠ "*" → grpDB g = none →
          UnixGroupFilter.scanGroups grpDB user p (g :: gs) =
            ((UnixGroupFilter.scanGroups grpDB user p gs).1,
              warnUnknownGroup g p.key ::
                (UnixGroupFilter.scanGroups grpDB user p gs).2))
      ∧ ((UnixGroupFilter.apply_filter grpDB ps user).1 =
          ps.filterMap (fun q =>
            (UnixGroupFilter.scanGroups grpDB user q q.allowedGroups).1))
      ∧ ((UnixGroupFilter.apply_filter grpDB ps user).1.length ≤ ps.length) := by
  intro grpDB user ps p g gs
  refine ⟨scanGroups_wildcard grpDB user p gs, ?_, ?_, apply_filter_entries grpDB user ps, ?_⟩
  · intro hp hw
    obtain ⟨e, he, hor⟩ := scanGroups_includes_of_wildcard grpDB user p p.allowedGroups hw
    refine ⟨e, ?_, hor⟩
    rw [apply_filter_entries grpDB user ps]
    exact List.mem_filterMap.mpr ⟨p, hp, he⟩
  · exact scanGroups_unknown_group grpDB user p g gs
  · rw [apply_filter_entries grpDB user ps]
    exact List.length_filterMap_le _ _

/-- A wildcard profile whose other group is unresolvable. -/
def fpWild : FProfile :=
  { display := "A", key := "a", type := "T", config := [],
    allowedGroups := ["nosuch", "*"] }

/-- A group database in which every lookup fails. -/
def grpNone : String → Option (List String) := fun _ => none

/-- Claim C4, witness: with a failing group database and the profile
fpWild, the hypotheses hold and the filter includes the profile while
the unresolvable group produces exactly one warning and a continued
scan. -/
theorem unix_group_filter_scan_behavior_witness :
    (fpWild ∈ [fpWild] ∧ "*" ∈ fpWild.allowedGroups
      ∧ ("nosuch" : String) ≠ "*" ∧ grpNone "nosuch" = none)
    ∧ (∃ e, e ∈ (UnixGroupFilter.apply_filter grpNone [fpWild] "alice").1
        ∧ (e = FilterEntry.full fpWild ∨ e = FilterEntry.stripped fpWild.strip))
    ∧ UnixGroupFilter.scanGroups grpNone "alice" fpWild ("nosuch" :: ["*"]) =
        ((UnixGroupFilter.scanGroups grpNone "alice" fpWild ["*"]).1,
          warnUnknownGroup "nosuch" fpWild.key ::
            (UnixGroupFilter.scanGroups grpNone "alice" fpWild ["*"]).2) :=
  ⟨⟨by decide, by decide, by decide, rfl⟩,
   (unix_group_filter_scan_behavior grpNone "alice" [fpWild] fpWild "nosuch" ["*"]).2.1
     (by decide) (by decide),
   (unix_group_filter_scan_behavior grpNone "alice" [fpWild] fpWild "nosuch" ["*"]).2.2.1
     (by decide) rfl⟩
/-- Membership in the duplicated set built by the validation scan: a
key is collected exactly when it is already in the seen accumulator
and occurs in the remainder, or occurs at least twice in the
remainder. -/
theorem mem_dupKeys (x : String) :
    ∀ (l seen : List String),
      x ∈ dupKeys seen l ↔ (x ∈ seen ∧ x ∈ l) ∨ 2 ≤ List.count x l := by
  intro l
  induction l with
  | nil => intro seen; simp [dupKeys]
  | cons k ks ih =>
    intro seen
    by_cases hk : k ∈ seen
    · rw [show dupKeys seen (k :: ks) = (dupKeys seen ks).insert k by
        simp [dupKeys, hk]]
      rw [List.mem_insert_iff, ih seen]
      by_cases hx : x = k
      · subst hx
        rw [List.count_cons_self]
        constructor
        · intro _
          exact Or.inl ⟨hk, List.mem_cons_self x ks⟩
        · intro _
          exact Or.inl rfl
      · rw [List.count_cons_of_ne hx]
        simp only [List.mem_cons]
        constructor
        · rintro (h | ⟨hs, hm⟩ | hc)
          · exact absurd h hx
          · exact Or.inl ⟨hs, Or.inr hm⟩
          · exact Or.inr hc
        · rintro (⟨hs, hm | hm⟩ | hc)
          · exact absurd hm hx
          · exact Or.inr (Or.inl ⟨hs, hm⟩)
          · exact Or.inr (Or.inr hc)
    · rw [show dupKeys seen (k :: ks) = dupKeys (k :: seen) ks by
        simp [dupKeys, hk]]
      rw [ih (k :: seen)]
      by_cases hx : x = k
      · subst hx
        rw [List.count_cons_self]
        constructor
        · rintro (⟨_, hm⟩ | hc)
          · refine Or.inr ?_
            have h1 : 0 < List.count x ks := List.count_pos_iff.mpr hm
            omega
          · exact Or.inr (by omega)
        · rintro (⟨hs, _⟩ | hc)
          · exact absurd hs hk
          · refine Or.inl ⟨List.mem_cons_self x seen, ?_⟩
            exact List.count_pos_iff.mp (by omega)
      · rw [List.count_cons_of_ne hx]
        simp only [List.mem_cons]
        constructor
        · rintro (⟨hs | hs, hm⟩ | hc)
          · exact absurd hs hx
          · exact Or.inl ⟨hs, Or.inr hm⟩
          · exact Or.inr hc
        · rintro (⟨hs, hm | hm⟩ | hc)
          · exact absurd hm hx
          · exact Or.inl ⟨Or.inr hs, hm⟩
          · exact Or.inr hc

/-- Claim C6: catalog validation returns the supplied profiles
unchanged exactly when their keys are unique; when some key occurs at
least twice it raises with a report that contains precisely the keys
occurring at least twice. -/
theorem validate_profiles_duplicate_detection :
    ∀ (profiles : List Profile),
      ((profiles.map Profile.key).Nodup →
        ProfilesSpawner._validate_profiles profiles = Except.ok profiles)
      ∧ (¬ (profiles.map Profile.key).Nodup →
        ∃ e, ProfilesSpawner._validate_profiles profiles = Except.error e
          ∧ ∀ k, k ∈ e ↔ 2 ≤ List.count k (profiles.map Profile.key)) := by
  intro profiles
  have hmem : ∀ k, k ∈ dupKeys [] (profiles.map Profile.key) ↔
      2 ≤ List.count k (profiles.map Profile.key) := by
    intro k
    rw [mem_dupKeys k (profiles.map Profile.key) []]
    simp
  have hnil : dupKeys [] (profiles.map Profile.key) = [] ↔
      (profiles.map Profile.key).Nodup := by
    rw [List.eq_nil_iff_forall_not_mem, List.nodup_iff_count_le_one]
    constructor
    · intro h a
      by_contra hc
      exact h a ((hmem a).mpr (by omega))
    · intro h a
      rw [hmem a]
      have := h a
      omega
  constructor
  · intro hnd
    have h0 : dupKeys [] (profiles.map Profile.key) = [] := hnil.mpr hnd
    simp [ProfilesSpawner._validate_profiles, h0]
  · intro hnd
    refine ⟨dupKeys [] (profiles.map Profile.key), ?_, hmem⟩
    have hlen : (dupKeys [] (profiles.map Profile.key)).length ≠ 0 := by
      intro h
      exact hnd (hnil.mp (List.length_eq_zero.mp h))
    simp [ProfilesSpawner._validate_profiles, hlen]

/-- Two profiles sharing the key a. -/
def dupA : Profile := { display := "A", key := "a", type := "T", config := [] }

/-- Second profile with the duplicated key a. -/
def dupB : Profile := { display := "B", key := "a", type := "T", config := [] }

/-- Claim C6, witness: the catalog [dupA, dupB] has a duplicated key
and is rejected with a report containing exactly the duplicated keys;
the singleton default catalog passes unchanged. -/
theorem validate_profiles_duplicate_detection_witness :
    ¬ ([dupA, dupB].map Profile.key).Nodup
    ∧ (∃ e, ProfilesSpawner._validate_profiles [dupA, dupB] = Except.error e
        ∧ ∀ k, k ∈ e ↔ 2 ≤ List.count k ([dupA, dupB].map Profile.key))
    ∧ ([localProfile].map Profile.key).Nodup
    ∧ ProfilesSpawner._validate_profiles [localProfile] = Except.ok [localProfile] :=
  ⟨by decide,
   (validate_profiles_duplicate_detection [dupA, dupB]).2 (by decide),
   by decide,
   (validate_profiles_duplicate_detection [localProfile]).1 (by decide)⟩

/-- Claim C1, counterexample: restoring the fresh wrapper s0 from the
envelope st0, whose profile key gone is absent from the catalog,
raises nothing; load_state runs to completion and constructs the
launcher from the prior default class, silently. -/
theorem load_state_absent_key_counterexample :
    "gone" ∉ s0.profiles.map Profile.key
    ∧ st0.profile = some "gone"
    ∧ (ProfilesSpawner.load_state ["port"] ["port"] s0 st0).wrap.child_spawner =
        some { id := 0, cls := "LocalProcessSpawner", config := [],
               loadedState := [] } :=
  ⟨by decide, rfl, rfl⟩

/-- Claim C1, amended: when the persisted profile key is absent from
the current catalog (and the user options name no catalog profile
either), load_state does not raise: select_profile leaves the prior or
default class and config in place and a launcher is silently
constructed from them, with the persisted child_conf merged in and the
persisted child state applied. -/
theorem load_state_absent_key_silent_fallback
    (tn ctn : List String) (s : PState) (st : PersistedState) (k : String)
    (hst : st.profile = some k)
    (hk : ∀ p ∈ s.profiles, p.key ≠ k)
    (hu : ∀ p ∈ s.profiles, p.key ≠ s.user_options_profile.getD "")
    (hc : s.wrap.child_spawner = none) :
    ∃ c, (ProfilesSpawner.load_state tn ctn s st).wrap.child_spawner = some c
      ∧ c.cls = s.wrap.child_class
      ∧ c.config = updateMap s.wrap.child_config st.child_conf
      ∧ c.loadedState = st.child_state := by
  have h1 : s.profiles.find? (fun p => p.key == k) = none :=
    List.find?_eq_none.mpr (fun p hp => by simp [hk p hp])
  have h2 : s.profiles.find?
      (fun p => p.key == s.user_options_profile.getD "") = none :=
    List.find?_eq_none.mpr (fun p hp => by simp [hu p hp])
  simp only [ProfilesSpawner.load_state, ProfilesSpawner.load_child_class,
    ProfilesSpawner.select_profile, ProfilesSpawner.construct_child,
    WrapSpawner.construct_child, hst, Option.getD_some, h1, h2, hc]
  exact ⟨_, rfl, rfl, rfl, rfl⟩

/-- Claim C1, witness: the amended statement applied to the concrete
wrapper s0 and envelope st0. -/
theorem load_state_absent_key_silent_fallback_witness :
    (st0.profile = some "gone"
      ∧ "gone" ∉ s0.profiles.map Profile.key
      ∧ s0.user_options_profile.getD "" ∉ s0.profiles.map Profile.key
      ∧ s0.wrap.child_spawner = none)
    ∧ (∃ c,
        (ProfilesSpawner.load_state ["port"] ["port"] s0 st0).wrap.child_spawner =
          some c
        ∧ c.cls = s0.wrap.child_class
        ∧ c.config = updateMap s0.wrap.child_config st0.child_conf
        ∧ c.loadedState = st0.child_state) :=
  ⟨⟨rfl, by decide, by decide, rfl⟩,
   load_state_absent_key_silent_fallback ["port"] ["port"] s0 st0 "gone"
     rfl (by decide) (by decide) rfl⟩
